import Mathlib

/-!
Verification of the betting-probability calculator (src/app.py).

The app loads four CSV tables, lets the user pick a league and two teams,
normalizes three user weights, blends three probability lookups into one
combined probability, classifies it for display, and emits a categorical
recommendation plus head-to-head historical rows.

Probabilities and weights are modelled as rationals; pandas tables are
association lists keyed by strings; a pandas `.loc` miss (a KeyError) is
modelled as `none`; the Python `ZeroDivisionError` on zero total weight is
modelled as a `none` result of weight normalization.
-/

/-- One row of a probability table (`league_probabilities.csv`,
`home_team_probabilities.csv`, `guest_team_probabilities.csv`):
columns `probability`, `reliability`, `total_games`. -/
structure ProbEntry where
  probability : ℚ
  reliability : String
  total_games : ℕ
deriving DecidableEq

/-- A probability table: rows indexed by a string key (the CSV index column). -/
abbrev ProbTable := List (String × ProbEntry)

/-- One row of `clean_data_bet.csv`: columns `league`, `home_team`,
`guest_team`, plus arbitrary result columns collapsed into `result`. -/
structure MatchRow where
  league : String
  home_team : String
  guest_team : String
  result : String
deriving DecidableEq

/-- The index (list of keys) of a probability table, like `df.index`. -/
def tableIndex (t : ProbTable) : List String := t.map Prod.fst

/-- `df.loc[key]` on a probability table; `none` models the pandas KeyError
raised when the key is absent (src/app.py lines 96-98). -/
def loc (t : ProbTable) (key : String) : Option ProbEntry := t.lookup key

/-- `get_probability_color` from src/app.py lines 37-43. -/
def get_probability_color (prob : ℚ) : String :=
  if prob ≥ 6/10 then "high-probability"
  else if prob ≥ 45/100 then "medium-probability"
  else "low-probability"

/-- The reliability-label test `x in ['High', 'Very High']` used by the
recommendation rule (src/app.py line 156). -/
def isHighReliability (x : String) : Bool := x == "High" || x == "Very High"

/-- The recommendation rule of src/app.py lines 156-164, as a pure function
of the combined probability and the three reliability labels. -/
def recommendation (combined_prob : ℚ) (league_rel home_rel away_rel : String) :
    String :=
  if combined_prob ≥ 6/10 ∧ isHighReliability league_rel
      ∧ isHighReliability home_rel ∧ isHighReliability away_rel then
    "Strong Betting Opportunity"
  else if combined_prob ≤ 4/10 then
    "High Risk - Consider Avoiding"
  else
    "Moderate Probability - Proceed with Caution"

/-- Weight normalization of src/app.py lines 107-108.  The source divides by
`total_weight` unconditionally; `none` models the Python ZeroDivisionError
raised when the total is zero. -/
def normalizeWeights (league_weight home_weight away_weight : ℚ) :
    Option (ℚ × ℚ × ℚ) :=
  let total_weight := league_weight + home_weight + away_weight
  if total_weight = 0 then none
  else some (league_weight / total_weight, home_weight / total_weight,
    away_weight / total_weight)

/-- The weighted combination of src/app.py line 111. -/
def combinedOfWeights (league_p home_p away_p : ℚ) (weights : ℚ × ℚ × ℚ) : ℚ :=
  league_p * weights.1 + home_p * weights.2.1 + away_p * weights.2.2

/-- Normalization followed by combination: the whole blend step of
src/app.py lines 107-111. -/
def blend (league_p home_p away_p league_weight home_weight away_weight : ℚ) :
    Option ℚ :=
  (normalizeWeights league_weight home_weight away_weight).map
    (combinedOfWeights league_p home_p away_p)

/-- Sum of the three components of a weight triple. -/
def tripleSum (w : ℚ × ℚ × ℚ) : ℚ := w.1 + w.2.1 + w.2.2

/-- C4: the display-color classification maps every probability to exactly one
of three tiers, with inclusive lower bounds: high exactly when the value is at
least 0.60, medium exactly when it is at least 0.45 and below 0.60, and low
exactly when it is below 0.45; the tiers partition the line with no gaps or
overlaps. -/
theorem get_probability_color_tiers (p : ℚ) :
    (get_probability_color p = "high-probability" ↔ 6/10 ≤ p)
    ∧ (get_probability_color p = "medium-probability" ↔ 45/100 ≤ p ∧ p < 6/10)
    ∧ (get_probability_color p = "low-probability" ↔ p < 45/100) := by
  unfold get_probability_color
  split_ifs with h1 h2
  · refine ⟨⟨fun _ => h1, fun _ => rfl⟩, ?_, ?_⟩
    · constructor
      · intro h; exact absurd h (by decide)
      · rintro ⟨-, hlt⟩; exact absurd h1 (not_le.mpr hlt)
    · constructor
      · intro h; exact absurd h (by decide)
      · intro hlt; exact absurd h1 (not_le.mpr (hlt.trans (by norm_num)))
  · refine ⟨?_, ⟨fun _ => ⟨h2, lt_of_not_le h1⟩, fun _ => rfl⟩, ?_⟩
    · constructor
      · intro h; exact absurd h (by decide)
      · intro hge; exact absurd hge h1
    · constructor
      · intro h; exact absurd h (by decide)
      · intro hlt; exact absurd h2 (not_le.mpr hlt)
  · refine ⟨?_, ?_, ⟨fun _ => lt_of_not_le h2, fun _ => rfl⟩⟩
    · constructor
      · intro h; exact absurd h (by decide)
      · intro hge; exact absurd hge h1
    · constructor
      · intro h; exact absurd h (by decide)
      · rintro ⟨hge, -⟩; exact absurd hge h2

/-- C1: the recommendation is computed in priority order: it is the strong
opportunity exactly when the combined probability is at least 0.60 and all
three reliability labels are High or Very High; otherwise it is high risk
exactly when the combined probability is at most 0.40 (boundary inclusive);
otherwise it is the moderate caution label, so combined exactly 0.60 with a
non-high reliability yields the moderate label. -/
theorem recommendation_priority (c : ℚ) (rl rh ra : String) :
    (recommendation c rl rh ra = "Strong Betting Opportunity" ↔
      6/10 ≤ c ∧ isHighReliability rl ∧ isHighReliability rh
        ∧ isHighReliability ra)
    ∧ (recommendation c rl rh ra = "High Risk - Consider Avoiding" ↔
      ¬(6/10 ≤ c ∧ isHighReliability rl ∧ isHighReliability rh
        ∧ isHighReliability ra) ∧ c ≤ 4/10)
    ∧ (recommendation c rl rh ra = "Moderate Probability - Proceed with Caution" ↔
      ¬(6/10 ≤ c ∧ isHighReliability rl ∧ isHighReliability rh
        ∧ isHighReliability ra) ∧ ¬(c ≤ 4/10))
    ∧ recommendation (6/10) "Low" rh ra
        = "Moderate Probability - Proceed with Caution" := by
  refine ⟨?_, ?_, ?_, ?_⟩
  · unfold recommendation
    split_ifs with h1 h2
    · exact ⟨fun _ => ⟨h1.1, h1.2.1, h1.2.2.1, h1.2.2.2⟩, fun _ => rfl⟩
    · exact ⟨fun h => absurd h (by decide), fun h => absurd ⟨h.1, h.2⟩ h1⟩
    · exact ⟨fun h => absurd h (by decide), fun h => absurd ⟨h.1, h.2⟩ h1⟩
  · unfold recommendation
    split_ifs with h1 h2
    · exact ⟨fun h => absurd h (by decide),
        fun h => absurd ⟨h1.1, h1.2.1, h1.2.2.1, h1.2.2.2⟩ h.1⟩
    · exact ⟨fun _ => ⟨fun h => h1 ⟨h.1, h.2.1, h.2.2.1, h.2.2.2⟩, h2⟩,
        fun _ => rfl⟩
    · exact ⟨fun h => absurd h (by decide), fun h => absurd h.2 h2⟩
  · unfold recommendation
    split_ifs with h1 h2
    · exact ⟨fun h => absurd h (by decide),
        fun h => absurd ⟨h1.1, h1.2.1, h1.2.2.1, h1.2.2.2⟩ h.1⟩
    · exact ⟨fun h => absurd h (by decide), fun h => absurd h2 h.2⟩
    · exact ⟨fun _ => ⟨fun h => h1 ⟨h.1, h.2.1, h.2.2.1, h.2.2.2⟩, h2⟩,
        fun _ => rfl⟩
  · unfold recommendation
    norm_num [isHighReliability]
    exact fun h => absurd h (by decide)

/-- C2: for probabilities in [0,1] and non-negative weights with strictly
positive total, the blend succeeds and the combined probability produced by
normalizing the weights and taking the weighted sum lies in [0,1]. -/
theorem blend_in_unit_interval (pl ph pa wl wh wa : ℚ)
    (hpl0 : 0 ≤ pl) (hpl1 : pl ≤ 1) (hph0 : 0 ≤ ph) (hph1 : ph ≤ 1)
    (hpa0 : 0 ≤ pa) (hpa1 : pa ≤ 1)
    (hwl : 0 ≤ wl) (hwh : 0 ≤ wh) (hwa : 0 ≤ wa)
    (htot : 0 < wl + wh + wa) :
    (blend pl ph pa wl wh wa).isSome = true
    ∧ 0 ≤ (blend pl ph pa wl wh wa).getD 0
    ∧ (blend pl ph pa wl wh wa).getD 0 ≤ 1 := by
  have hne : wl + wh + wa ≠ 0 := ne_of_gt htot
  have hval : blend pl ph pa wl wh wa
      = some ((pl * wl + ph * wh + pa * wa) / (wl + wh + wa)) := by
    simp only [blend, normalizeWeights, combinedOfWeights, if_neg hne,
      Option.map_some']
    congr 1
    field_simp
  refine ⟨by simp [hval], ?_, ?_⟩
  · rw [hval]
    simp only [Option.getD_some]
    exact div_nonneg (by positivity) htot.le
  · rw [hval]
    simp only [Option.getD_some]
    rw [div_le_one htot]
    nlinarith [mul_le_of_le_one_left hwl hpl1, mul_le_of_le_one_left hwh hph1,
      mul_le_of_le_one_left hwa hpa1]

/-- Witness for C2 at the worked example of the spec: probabilities
0.70, 0.65, 0.55 with weights 0.4, 0.3, 0.3. -/
theorem blend_in_unit_interval_witness :
    (blend (7/10) (13/20) (11/20) (4/10) (3/10) (3/10)).isSome = true
    ∧ 0 ≤ (blend (7/10) (13/20) (11/20) (4/10) (3/10) (3/10)).getD 0
    ∧ (blend (7/10) (13/20) (11/20) (4/10) (3/10) (3/10)).getD 0 ≤ 1 :=
  blend_in_unit_interval (7/10) (13/20) (11/20) (4/10) (3/10) (3/10)
    (by norm_num) (by norm_num) (by norm_num) (by norm_num) (by norm_num)
    (by norm_num) (by norm_num) (by norm_num) (by norm_num) (by norm_num)

/-- C3: when all three weights are zero the normalization step fails (the
source divides by zero there), and for every triple of non-negative weights
with strictly positive total the normalization succeeds and the normalized
weights sum to 1. -/
theorem normalizeWeights_zero_total_and_sum_one :
    (∀ wl wh wa : ℚ, wl = 0 ∧ wh = 0 ∧ wa = 0 →
      normalizeWeights wl wh wa = none)
    ∧ (∀ wl wh wa : ℚ, 0 ≤ wl → 0 ≤ wh → 0 ≤ wa → 0 < wl + wh + wa →
      (normalizeWeights wl wh wa).isSome = true
      ∧ tripleSum ((normalizeWeights wl wh wa).getD (0, 0, 0)) = 1) := by
  constructor
  · rintro wl wh wa ⟨rfl, rfl, rfl⟩
    simp [normalizeWeights]
  · intro wl wh wa hwl hwh hwa htot
    have hne : wl + wh + wa ≠ 0 := ne_of_gt htot
    refine ⟨by simp [normalizeWeights, if_neg hne], ?_⟩
    simp only [normalizeWeights, if_neg hne, Option.getD_some, tripleSum]
    field_simp

/-- Witness for C3: all-zero weights fail, and the default weights
0.4, 0.3, 0.3 normalize to a triple summing to 1. -/
theorem normalizeWeights_zero_total_and_sum_one_witness :
    normalizeWeights 0 0 0 = none
    ∧ (normalizeWeights (4/10) (3/10) (3/10)).isSome = true
    ∧ tripleSum ((normalizeWeights (4/10) (3/10) (3/10)).getD (0, 0, 0)) = 1 :=
  ⟨normalizeWeights_zero_total_and_sum_one.1 0 0 0 ⟨rfl, rfl, rfl⟩,
    (normalizeWeights_zero_total_and_sum_one.2 (4/10) (3/10) (3/10)
      (by norm_num) (by norm_num) (by norm_num) (by norm_num)).1,
    (normalizeWeights_zero_total_and_sum_one.2 (4/10) (3/10) (3/10)
      (by norm_num) (by norm_num) (by norm_num) (by norm_num)).2⟩

/-- C5: for probabilities in [0,1], non-negative weights with positive sum,
and any scale factor k greater than 0, blending with weights (a, b, c) and
with weights (ka, kb, kc) yields the identical combined probability. -/
theorem blend_scale_invariant (pl ph pa a b c k : ℚ)
    (hpl0 : 0 ≤ pl) (hpl1 : pl ≤ 1) (hph0 : 0 ≤ ph) (hph1 : ph ≤ 1)
    (hpa0 : 0 ≤ pa) (hpa1 : pa ≤ 1)
    (ha : 0 ≤ a) (hb : 0 ≤ b) (hc : 0 ≤ c)
    (htot : 0 < a + b + c) (hk : 0 < k) :
    blend pl ph pa (k * a) (k * b) (k * c) = blend pl ph pa a b c := by
  have hne : a + b + c ≠ 0 := ne_of_gt htot
  have hkne : k ≠ 0 := ne_of_gt hk
  have hsum : k * a + k * b + k * c = k * (a + b + c) := by ring
  have hkne2 : k * a + k * b + k * c ≠ 0 := by
    rw [hsum]
    exact mul_ne_zero hkne hne
  simp only [blend, normalizeWeights, combinedOfWeights, if_neg hne,
    if_neg hkne2, Option.map_some']
  congr 1
  rw [hsum, mul_div_mul_left a _ hkne, mul_div_mul_left b _ hkne,
    mul_div_mul_left c _ hkne]

/-- Witness for C5: doubling the default weights 0.4, 0.3, 0.3 leaves the
blend of the spec example probabilities unchanged. -/
theorem blend_scale_invariant_witness :
    blend (7/10) (13/20) (11/20) (2 * (4/10)) (2 * (3/10)) (2 * (3/10))
      = blend (7/10) (13/20) (11/20) (4/10) (3/10) (3/10) :=
  blend_scale_invariant (7/10) (13/20) (11/20) (4/10) (3/10) (3/10) 2
    (by norm_num) (by norm_num) (by norm_num) (by norm_num) (by norm_num)
    (by norm_num) (by norm_num) (by norm_num) (by norm_num) (by norm_num)
    (by norm_num)

/-- The candidate home-team list of src/app.py line 68:
`sorted(set(league_teams['home_team']) & set(home_probs.index))`, where
`league_teams` is the historical data filtered to the selected league
(line 67). -/
def availableHomeTeams (historical_data : List MatchRow)
    (selected_league : String) (home_index : List String) : List String :=
  List.insertionSort (fun x y => x ≤ y)
    ((((historical_data.filter (fun r => r.league == selected_league)).map
      MatchRow.home_team).filter (fun t => home_index.contains t)).dedup)

/-- The candidate away-team list of src/app.py line 69:
`sorted(set(league_teams['guest_team']) & set(guest_probs.index))`. -/
def availableAwayTeams (historical_data : List MatchRow)
    (selected_league : String) (guest_index : List String) : List String :=
  List.insertionSort (fun x y => x ≤ y)
    ((((historical_data.filter (fun r => r.league == selected_league)).map
      MatchRow.guest_team).filter (fun t => guest_index.contains t)).dedup)

/-- The head-to-head filter of src/app.py lines 168-171: rows whose home team
and guest team match the selection, with no condition on the league. -/
def head_to_head (historical_data : List MatchRow)
    (selected_home selected_away : String) : List MatchRow :=
  historical_data.filter
    (fun r => r.home_team == selected_home && r.guest_team == selected_away)

/-- C6: the candidate home-team list is the sorted duplicate-free intersection
of the home_team values of historical rows of the selected league with the
keys of the home-team probability table, and the away-team list is the
analogous intersection over guest_team values and the guest table keys. -/
theorem available_teams_sorted_intersection (hist : List MatchRow) (L : String)
    (hidx gidx : List String) :
    (∀ t, t ∈ availableHomeTeams hist L hidx ↔
      (∃ r ∈ hist, r.league = L ∧ r.home_team = t) ∧ t ∈ hidx)
    ∧ (availableHomeTeams hist L hidx).Sorted (fun x y => x ≤ y)
    ∧ (availableHomeTeams hist L hidx).Nodup
    ∧ (∀ t, t ∈ availableAwayTeams hist L gidx ↔
      (∃ r ∈ hist, r.league = L ∧ r.guest_team = t) ∧ t ∈ gidx)
    ∧ (availableAwayTeams hist L gidx).Sorted (fun x y => x ≤ y)
    ∧ (availableAwayTeams hist L gidx).Nodup := by
  refine ⟨?_, ?_, ?_, ?_, ?_, ?_⟩
  · intro t
    unfold availableHomeTeams
    rw [(List.perm_insertionSort (fun x y => x ≤ y) _).mem_iff]
    simp only [List.mem_dedup, List.mem_filter, List.mem_map,
      List.elem_eq_mem, decide_eq_true_eq, beq_iff_eq]
    constructor
    · rintro ⟨⟨r, ⟨hr, hrl⟩, hrt⟩, ht⟩
      exact ⟨⟨r, hr, hrl, hrt⟩, ht⟩
    · rintro ⟨⟨r, hr, hrl, hrt⟩, ht⟩
      exact ⟨⟨r, ⟨hr, hrl⟩, hrt⟩, ht⟩
  · exact List.sorted_insertionSort _ _
  · exact ((List.perm_insertionSort _ _).nodup_iff).mpr (List.nodup_dedup _)
  · intro t
    unfold availableAwayTeams
    rw [(List.perm_insertionSort (fun x y => x ≤ y) _).mem_iff]
    simp only [List.mem_dedup, List.mem_filter, List.mem_map,
      List.elem_eq_mem, decide_eq_true_eq, beq_iff_eq]
    constructor
    · rintro ⟨⟨r, ⟨hr, hrl⟩, hrt⟩, ht⟩
      exact ⟨⟨r, hr, hrl, hrt⟩, ht⟩
    · rintro ⟨⟨r, hr, hrl, hrt⟩, ht⟩
      exact ⟨⟨r, ⟨hr, hrl⟩, hrt⟩, ht⟩
  · exact List.sorted_insertionSort _ _
  · exact ((List.perm_insertionSort _ _).nodup_iff).mpr (List.nodup_dedup _)

/-- C8: looking up a key that is not in the index of a loaded probability
table fails (KeyError, modelled as none) rather than returning a default;
equivalently, the lookup returns none exactly for the missing keys. -/
theorem loc_none_iff_missing (t : ProbTable) (key : String) :
    loc t key = none ↔ key ∉ tableIndex t := by
  unfold loc tableIndex
  induction t with
  | nil => simp [List.lookup]
  | cons p rest ih =>
    rw [List.lookup_cons]
    rcases hbeq : key == p.1 with _ | _
    · simp only [List.map_cons, List.mem_cons]
      rw [ih]
      have hne : key ≠ p.1 := by
        intro h
        rw [h] at hbeq
        simp at hbeq
      constructor
      · intro h hmem
        rcases hmem with h1 | h1
        · exact hne h1
        · exact h h1
      · intro h hmem
        exact h (Or.inr hmem)
    · have heq : key = p.1 := by
        exact beq_iff_eq.mp hbeq
      simp [heq]

/-- C10: the displayed head-to-head rows are selected by equality on
home_team and guest_team only; every historical row where the pair met is
included, regardless of that row's league, in particular rows whose league
differs from the currently selected league. -/
theorem head_to_head_ignores_league (hist : List MatchRow)
    (h a : String) :
    (∀ r, r ∈ head_to_head hist h a ↔
      r ∈ hist ∧ r.home_team = h ∧ r.guest_team = a)
    ∧ (∀ (selected_league : String) (r : MatchRow), r ∈ hist →
      r.home_team = h → r.guest_team = a → r.league ≠ selected_league →
      r ∈ head_to_head hist h a) := by
  have hmem : ∀ r, r ∈ head_to_head hist h a ↔
      r ∈ hist ∧ r.home_team = h ∧ r.guest_team = a := by
    intro r
    unfold head_to_head
    rw [List.mem_filter]
    simp [beq_iff_eq]
  exact ⟨hmem, fun _ r hr hh ha _ => (hmem r).mpr ⟨hr, hh, ha⟩⟩

/-- Witness for C10: a row whose league differs from the selected league is
still listed among the head-to-head rows of its pairing. -/
theorem head_to_head_ignores_league_witness :
    MatchRow.mk "L2" "A" "B" "1-0"
      ∈ head_to_head [MatchRow.mk "L2" "A" "B" "1-0"] "A" "B" :=
  (head_to_head_ignores_league [MatchRow.mk "L2" "A" "B" "1-0"] "A" "B").2
    "L1" (MatchRow.mk "L2" "A" "B" "1-0") (List.mem_singleton.mpr rfl)
    rfl rfl (by decide)

/-- The four input files read by `load_data` (src/app.py lines 28-35); a
`none` field models an absent file (pandas raises FileNotFoundError). -/
structure FileSystem where
  league_probabilities : Option ProbTable
  home_team_probabilities : Option ProbTable
  guest_team_probabilities : Option ProbTable
  clean_data_bet : Option (List MatchRow)

/-- The data returned by a successful `load_data`. -/
structure AppData where
  league_probs : ProbTable
  home_probs : ProbTable
  guest_probs : ProbTable
  historical_data : List MatchRow

/-- `load_data` of src/app.py lines 28-35: reads the four files in order and
fails (FileNotFoundError, modelled as none) when any is absent. -/
def load_data (fs : FileSystem) : Option AppData := do
  let league_probs ← fs.league_probabilities
  let home_probs ← fs.home_team_probabilities
  let guest_probs ← fs.guest_team_probabilities
  let historical_data ← fs.clean_data_bet
  pure ⟨league_probs, home_probs, guest_probs, historical_data⟩

/-- Outcome of one render pass of `main` (src/app.py lines 45-175).  The
stopped constructors carry the message shown before `st.stop`; `keyError`
models a pandas `.loc` miss; `zeroDivisionError` models the division by a
zero total weight. -/
inductive MainResult where
  | stoppedMissingFiles (msg : String)
  | stoppedNoHomeTeams (msg : String)
  | stoppedNoAwayTeams (msg : String)
  | keyError (key : String)
  | zeroDivisionError
  | rendered (combined_prob : ℚ) (color recText : String)
      (history : List MatchRow)
deriving DecidableEq

/-- One render pass of `main` (src/app.py lines 45-175).  The three pick
functions model the selectbox choices the user makes from the offered
option lists. -/
def mainFlow (fs : FileSystem)
    (pickLeague pickHome pickAway : List String → String)
    (league_weight home_weight away_weight : ℚ) : MainResult :=
  match load_data fs with
  | none => .stoppedMissingFiles
      "Please run the data processing notebook first to generate the required files."
  | some d =>
    let selected_league := pickLeague
      (List.insertionSort (fun x y => x ≤ y) (tableIndex d.league_probs))
    let available_home_teams := availableHomeTeams d.historical_data
      selected_league (tableIndex d.home_probs)
    if available_home_teams = [] then
      .stoppedNoHomeTeams "No home teams available for this league"
    else
      let selected_home := pickHome available_home_teams
      let available_away_teams := availableAwayTeams d.historical_data
        selected_league (tableIndex d.guest_probs)
      if available_away_teams = [] then
        .stoppedNoAwayTeams "No away teams available for this league"
      else
        let selected_away := pickAway available_away_teams
        match loc d.league_probs selected_league,
            loc d.home_probs selected_home,
            loc d.guest_probs selected_away with
        | some league_row, some home_row, some away_row =>
          let total_weight := league_weight + home_weight + away_weight
          if total_weight = 0 then .zeroDivisionError
          else
            let weights := (league_weight / total_weight,
              home_weight / total_weight, away_weight / total_weight)
            let combined_prob := league_row.probability * weights.1
              + home_row.probability * weights.2.1
              + away_row.probability * weights.2.2
            .rendered combined_prob (get_probability_color combined_prob)
              (recommendation combined_prob league_row.reliability
                home_row.reliability away_row.reliability)
              (head_to_head d.historical_data selected_home selected_away)
        | none, _, _ => .keyError selected_league
        | some _, none, _ => .keyError (pickHome available_home_teams)
        | some _, some _, none => .keyError (pickAway available_away_teams)

/-- C9: if any of the four required input files is absent, the render stops
at once with the message telling the user to run the upstream data
generation first; no further computation happens. -/
theorem missing_file_fails_fast (fs : FileSystem)
    (pickLeague pickHome pickAway : List String → String)
    (wl wh wa : ℚ)
    (h : fs.league_probabilities = none
      ∨ fs.home_team_probabilities = none
      ∨ fs.guest_team_probabilities = none
      ∨ fs.clean_data_bet = none) :
    mainFlow fs pickLeague pickHome pickAway wl wh wa
      = .stoppedMissingFiles
        "Please run the data processing notebook first to generate the required files." := by
  have hload : load_data fs = none := by
    obtain ⟨a, b, c, d⟩ := fs
    rcases h with h | h | h | h <;> simp_all [load_data]
  unfold mainFlow
  rw [hload]

/-- Witness for C9: with all four files absent the render stops with the
data-generation message. -/
theorem missing_file_fails_fast_witness :
    mainFlow ⟨none, none, none, none⟩
      (fun _ => "") (fun _ => "") (fun _ => "") 0 0 0
      = .stoppedMissingFiles
        "Please run the data processing notebook first to generate the required files." :=
  missing_file_fails_fast ⟨none, none, none, none⟩
    (fun _ => "") (fun _ => "") (fun _ => "") 0 0 0 (Or.inl rfl)

/-- C7: when the computed candidate team set for the selected league is
empty the render stops with a non-fatal warning for that role — it does not
crash and does not reach the probability lookups or the blend: if the home
candidate list is empty the pass halts with the no-home-teams warning, and
if the home list is non-empty but the away candidate list is empty it halts
with the no-away-teams warning. -/
theorem empty_candidates_warn_and_halt (lp hp gp : ProbTable)
    (hist : List MatchRow)
    (pickLeague pickHome pickAway : List String → String) (wl wh wa : ℚ) :
    (availableHomeTeams hist
        (pickLeague (List.insertionSort (fun x y => x ≤ y) (tableIndex lp)))
        (tableIndex hp) = [] →
      mainFlow ⟨some lp, some hp, some gp, some hist⟩
          pickLeague pickHome pickAway wl wh wa
        = .stoppedNoHomeTeams "No home teams available for this league")
    ∧ (availableHomeTeams hist
        (pickLeague (List.insertionSort (fun x y => x ≤ y) (tableIndex lp)))
        (tableIndex hp) ≠ [] →
      availableAwayTeams hist
        (pickLeague (List.insertionSort (fun x y => x ≤ y) (tableIndex lp)))
        (tableIndex gp) = [] →
      mainFlow ⟨some lp, some hp, some gp, some hist⟩
          pickLeague pickHome pickAway wl wh wa
        = .stoppedNoAwayTeams "No away teams available for this league") := by
  have hload : load_data ⟨some lp, some hp, some gp, some hist⟩
      = some ⟨lp, hp, gp, hist⟩ := rfl
  constructor
  · intro h
    unfold mainFlow
    rw [hload]
    dsimp only
    rw [if_pos h]
  · intro hne haway
    unfold mainFlow
    rw [hload]
    dsimp only
    rw [if_neg hne, if_pos haway]

/-- Witness for C7: a league with no eligible home teams halts with the
no-home-teams warning, and one with an eligible home team but no eligible
away team halts with the no-away-teams warning. -/
theorem empty_candidates_warn_and_halt_witness :
    mainFlow ⟨some [], some [], some [], some []⟩
        (fun _ => "L") (fun _ => "A") (fun _ => "B") 1 1 1
      = .stoppedNoHomeTeams "No home teams available for this league"
    ∧ mainFlow
        ⟨some [], some [("A", ProbEntry.mk (1/2) "High" 3)], some [],
          some [MatchRow.mk "L" "A" "B" "1-0"]⟩
        (fun _ => "L") (fun _ => "A") (fun _ => "B") 1 1 1
      = .stoppedNoAwayTeams "No away teams available for this league" :=
  ⟨(empty_candidates_warn_and_halt [] [] [] []
      (fun _ => "L") (fun _ => "A") (fun _ => "B") 1 1 1).1 rfl,
    (empty_candidates_warn_and_halt [] [("A", ProbEntry.mk (1/2) "High" 3)] []
      [MatchRow.mk "L" "A" "B" "1-0"]
      (fun _ => "L") (fun _ => "A") (fun _ => "B") 1 1 1).2
      (by decide) (by decide)⟩
